import Mathlib

/-!
Verification of the food-ordering backend (src/main.py, src/schemas.py).

Prices and totals are Python floats in the source; they are embedded here as
exact rationals (`ℚ`).  Python's built-in `round(x, 2)` rounds to the nearest
multiple of 1/100 with ties going to the even multiple; it is embedded as
`round2` below.  The document store (`database.py`, imported by main.py but
not part of the sources) is modelled from the spec's Document Store Adapter
contract: `create(collection, document) -> identity` appends a document
carrying a fresh store-assigned identity, `read_many(collection)` returns the
collection's documents in insertion order.
-/

namespace FoodApp

/-! ## Rounding: Python `round(x, 2)` -/

/-- Python `round` to the nearest integer: nearest `ℤ`, ties to the even
integer (Python uses banker's rounding). -/
def pyRoundInt (q : ℚ) : ℤ :=
  if q - ⌊q⌋ < 1/2 then ⌊q⌋
  else if 1/2 < q - ⌊q⌋ then ⌊q⌋ + 1
  else if ⌊q⌋ % 2 = 0 then ⌊q⌋ else ⌊q⌋ + 1

/-- Python `round(q, 2)`: round to the nearest multiple of 1/100, ties to
even (src/main.py line 139 / 142: `round(total, 2)`). -/
def round2 (q : ℚ) : ℚ := (pyRoundInt (q * 100) : ℚ) / 100

/-- Modelled from the spec: rounding to two decimals with "standard half-up"
ties (ties go away from the floor), used only to compare the spec's stated
rounding mode against the code's. -/
def round2HalfUpSpec (q : ℚ) : ℚ := ((⌊q * 100 + 1/2⌋ : ℤ) : ℚ) / 100

/-! ## Validated schema values (src/schemas.py) -/

/-- src/schemas.py `MenuItem`: a payload that passed pydantic validation.
`price` carries the constraint `ge=0` checked by `MenuItem.validate`. -/
structure MenuItem where
  name : String
  description : Option String
  price : ℚ
  category : String
  image_url : Option String
  is_available : Bool
deriving Repr, DecidableEq

/-- src/schemas.py `OrderItem`: a validated line item; `quantity` carries
the constraint `ge=1` checked by `OrderItem.validate`. -/
structure OrderItem where
  menu_item_id : String
  quantity : ℤ
deriving Repr, DecidableEq

/-- src/schemas.py `Order`: a validated order payload. -/
structure Order where
  customer_name : String
  customer_phone : String
  customer_address : String
  items : List OrderItem
  notes : Option String
  status : String
deriving Repr, DecidableEq

/-! ## Raw (pre-validation) payloads and pydantic validation

A raw JSON body is modelled field by field: `none` is an absent key.  Pydantic
ignores unknown keys, so a caller-supplied `total` on an order body is kept in
the raw payload (`RawOrder.total`) and dropped by validation. -/

/-- A raw `MenuItem` request body before validation. -/
structure RawMenuItem where
  name : Option String
  description : Option String
  price : Option ℚ
  category : Option String
  image_url : Option String
  is_available : Option Bool
deriving Repr, DecidableEq

/-- A raw `OrderItem` object before validation. -/
structure RawOrderItem where
  menu_item_id : Option String
  quantity : Option ℤ
deriving Repr, DecidableEq

/-- A raw `Order` request body before validation.  `total` models a
caller-supplied `total` key, an unknown field that pydantic ignores. -/
structure RawOrder where
  customer_name : Option String
  customer_phone : Option String
  customer_address : Option String
  items : Option (List RawOrderItem)
  notes : Option String
  status : Option String
  total : Option ℚ
deriving Repr, DecidableEq

/-- A pydantic validation failure: a required field is missing, or a numeric
bound (`ge=...`) is violated. -/
inductive ValErr where
  | missing (field : String)
  | ge (field : String) (bound : ℤ)
deriving Repr, DecidableEq

/-- Validation of src/schemas.py `MenuItem`: `name`, `price`, `category`
required; `price` must satisfy `ge=0`; `is_available` defaults to `true`.
Pydantic `str` fields accept any string, the empty string included. -/
def MenuItem.validate (r : RawMenuItem) : Except ValErr MenuItem :=
  match r.name with
  | none => .error (.missing "name")
  | some nm =>
    match r.price with
    | none => .error (.missing "price")
    | some p =>
      if p < 0 then .error (.ge "price" 0)
      else
        match r.category with
        | none => .error (.missing "category")
        | some cat =>
          .ok { name := nm, description := r.description, price := p,
                category := cat, image_url := r.image_url,
                is_available := r.is_available.getD true }

/-- Validation of src/schemas.py `OrderItem`: `menu_item_id` and `quantity`
required; `quantity` must satisfy `ge=1`. -/
def OrderItem.validate (r : RawOrderItem) : Except ValErr OrderItem :=
  match r.menu_item_id with
  | none => .error (.missing "menu_item_id")
  | some mid =>
    match r.quantity with
    | none => .error (.missing "quantity")
    | some q =>
      if q < 1 then .error (.ge "quantity" 1)
      else .ok { menu_item_id := mid, quantity := q }

/-- Element-wise validation of an order's `items` list. -/
def validateItems : List RawOrderItem → Except ValErr (List OrderItem)
  | [] => .ok []
  | r :: rest =>
    match OrderItem.validate r with
    | .error e => .error e
    | .ok it =>
      match validateItems rest with
      | .error e => .error e
      | .ok its => .ok (it :: its)

/-- Validation of src/schemas.py `Order`: the three customer strings and
`items` are required, `notes` is optional, `status` defaults to `"pending"`.
A caller-supplied `total` is an unknown key and is dropped. -/
def Order.validate (r : RawOrder) : Except ValErr Order :=
  match r.customer_name with
  | none => .error (.missing "customer_name")
  | some nm =>
    match r.customer_phone with
    | none => .error (.missing "customer_phone")
    | some ph =>
      match r.customer_address with
      | none => .error (.missing "customer_address")
      | some ad =>
        match r.items with
        | none => .error (.missing "items")
        | some rits =>
          match validateItems rits with
          | .error e => .error e
          | .ok its =>
            .ok { customer_name := nm, customer_phone := ph,
                  customer_address := ad, items := its, notes := r.notes,
                  status := r.status.getD "pending" }

/-! ## The document store (modelled from the spec) -/

/-- A stored `menuitem` document.  The store is schema-flexible, so every
payload field is optional at the document level; `_id` is the store-assigned
identity (modelled as a natural number, exposed to clients as its decimal
string). -/
structure MenuItemDoc where
  _id : Nat
  name : Option String
  description : Option String
  price : Option ℚ
  category : Option String
  image_url : Option String
  is_available : Option Bool
deriving Repr, DecidableEq

/-- The dictionary persisted for an order: `order.model_dump()` with the
server-computed `total` injected (src/main.py lines 138-139). -/
structure OrderDump where
  customer_name : String
  customer_phone : String
  customer_address : String
  items : List OrderItem
  notes : Option String
  status : String
  total : ℚ
deriving Repr, DecidableEq

/-- A stored `order` document: the dumped payload plus the identity. -/
structure OrderDoc where
  _id : Nat
  doc : OrderDump
deriving Repr, DecidableEq

/-- Modelled from the spec: the Document Store Adapter (`database.py`, not in
the sources).  Two collections are used by the code, `menuitem` and `order`;
`nextId` is the store's fresh-identity supply. -/
structure Store where
  menu : List MenuItemDoc
  orders : List OrderDoc
  nextId : Nat
deriving Repr, DecidableEq

/-- The dump of a validated `MenuItem` as stored by `create_document`. -/
def menuItemToDoc (id : Nat) (m : MenuItem) : MenuItemDoc :=
  { _id := id, name := some m.name, description := m.description,
    price := some m.price, category := some m.category,
    image_url := m.image_url, is_available := some m.is_available }

/-- Modelled from the spec: `create_document("menuitem", item)` — assigns a
fresh identity, appends the dumped document, returns the identity as a
string. -/
def create_menu_document (s : Store) (m : MenuItem) : String × Store :=
  (toString s.nextId,
   { s with menu := s.menu ++ [menuItemToDoc s.nextId m],
            nextId := s.nextId + 1 })

/-- Modelled from the spec: `create_document("order", order_dict)`. -/
def create_order_document (s : Store) (d : OrderDump) : String × Store :=
  (toString s.nextId,
   { s with orders := s.orders ++ [{ _id := s.nextId, doc := d }],
            nextId := s.nextId + 1 })

/-- Modelled from the spec: `get_documents("menuitem")` — the collection's
documents in insertion order. -/
def get_menu_documents (s : Store) : List MenuItemDoc := s.menu

/-! ## The API handlers (src/main.py) -/

/-- A serialized menu document as returned by `serialize_doc`
(src/main.py lines 23-36): `_id` replaced by its string form under `id`. -/
structure SerMenuItem where
  id : String
  name : Option String
  description : Option String
  price : Option ℚ
  category : Option String
  image_url : Option String
  is_available : Option Bool
deriving Repr, DecidableEq

/-- src/main.py `serialize_doc` on a menu document. -/
def serialize_doc (d : MenuItemDoc) : SerMenuItem :=
  { id := toString d._id, name := d.name, description := d.description,
    price := d.price, category := d.category, image_url := d.image_url,
    is_available := d.is_available }

/-- src/main.py lines 97-102: the four fixed demonstration menu items. -/
def seed_items : List MenuItem :=
  [ { name := "Margherita Pizza",
      description := some "Classic with tomatoes, mozzarella & basil",
      price := 1099/100, category := "Pizza",
      image_url := some "https://images.unsplash.com/photo-1548365328-9f547fb09530?q=80&w=1200&auto=format&fit=crop",
      is_available := true },
    { name := "Spaghetti Carbonara",
      description := some "Creamy sauce with pancetta & parmesan",
      price := 125/10, category := "Pasta",
      image_url := some "https://images.unsplash.com/photo-1523986371872-9d3ba2e2f642?q=80&w=1200&auto=format&fit=crop",
      is_available := true },
    { name := "Caesar Salad",
      description := some "Romaine, croutons, parmesan & Caesar dressing",
      price := 875/100, category := "Salad",
      image_url := some "https://images.unsplash.com/photo-1551892374-ecf8754cf8c0?q=80&w=1200&auto=format&fit=crop",
      is_available := true },
    { name := "Iced Lemon Tea",
      description := some "Refreshing home-brewed lemon tea",
      price := 35/10, category := "Drinks",
      image_url := some "https://images.unsplash.com/photo-1497534446932-c925b458314e?q=80&w=1200&auto=format&fit=crop",
      is_available := true } ]

/-- src/main.py lines 103-104: insert the seed items one by one. -/
def seedStore (s : Store) : Store :=
  seed_items.foldl (fun st it => (create_menu_document st it).2) s

/-- src/main.py `list_menu` (lines 92-106): read the collection; if empty,
seed the four demonstration items and re-read; serialize every document. -/
def list_menu (s : Store) : List SerMenuItem × Store :=
  let items := get_menu_documents s
  if items.isEmpty then
    let s' := seedStore s
    ((get_menu_documents s').map serialize_doc, s')
  else
    (items.map serialize_doc, s)

/-- src/main.py `create_menu_item` (lines 109-112): persist a validated
item, answer `{id: new_id}`. -/
def create_menu_item (item : MenuItem) (s : Store) : String × Store :=
  create_menu_document s item

/-- The full `/menu` POST pipeline: pydantic validation of the raw body,
then the `create_menu_item` handler.  A validation failure persists
nothing. -/
def menu_endpoint (r : RawMenuItem) (s : Store) : Except ValErr String × Store :=
  match MenuItem.validate r with
  | .error e => (.error e, s)
  | .ok m =>
    let res := create_menu_item m s
    (.ok res.1, res.2)

/-- src/main.py `HTTPException(status_code, detail)`. -/
structure HTTPError where
  status_code : Nat
  detail : String
deriving Repr, DecidableEq

/-- src/main.py `OrderResponse` (lines 117-120): the full success-response
contract of `create_order` — exactly these three fields. -/
structure OrderResponse where
  id : String
  total : ℚ
  status : String
deriving Repr, DecidableEq

/-- src/main.py lines 126-130: the price mapping built from the full
`menuitem` collection: `id_to_price[str(m["_id"])] = float(m.get("price", 0))`.
A later document with the same identity overwrites an earlier one (Python
dict assignment), hence the lookup on the reversed list; a document without
a `price` key contributes price 0. -/
def id_to_price (menu_docs : List MenuItemDoc) (key : String) : Option ℚ :=
  match menu_docs.reverse.find? (fun m => toString m._id == key) with
  | some m => some (m.price.getD 0)
  | none => none

/-- src/main.py lines 132-136: the accumulation loop over `order.items`;
raises 400 at the first `menu_item_id` absent from the mapping. -/
def sumItems (price : String → Option ℚ) :
    List OrderItem → ℚ → Except HTTPError ℚ
  | [], acc => .ok acc
  | it :: rest, acc =>
    match price it.menu_item_id with
    | none => .error { status_code := 400,
                       detail := "Menu item not found: " ++ it.menu_item_id }
    | some p => sumItems price rest (acc + p * (it.quantity : ℚ))

/-- src/main.py lines 138-139: `order.model_dump()` with the rounded total
injected under the `total` key. -/
def order_dict (order : Order) (total : ℚ) : OrderDump :=
  { customer_name := order.customer_name,
    customer_phone := order.customer_phone,
    customer_address := order.customer_address,
    items := order.items, notes := order.notes, status := order.status,
    total := total }

/-- src/main.py `create_order` (lines 123-142).  An `HTTPException` raised
inside the loop leaves the store untouched (the write happens after the
loop), so the error case returns the store unchanged. -/
def create_order (order : Order) (s : Store) :
    Except HTTPError OrderResponse × Store :=
  match sumItems (id_to_price (get_menu_documents s)) order.items 0 with
  | .error e => (.error e, s)
  | .ok total =>
    let res := create_order_document s (order_dict order (round2 total))
    (.ok { id := res.1, total := round2 total, status := order.status },
     res.2)

/-- An error surfaced by the `/orders` endpoint: a 422 pydantic validation
failure or an `HTTPException` raised by the handler. -/
inductive ApiError where
  | validation (e : ValErr)
  | http (e : HTTPError)
deriving Repr, DecidableEq

/-- The full `/orders` POST pipeline: pydantic validation of the raw body,
then the `create_order` handler.  A validation failure persists nothing. -/
def order_endpoint (r : RawOrder) (s : Store) :
    Except ApiError OrderResponse × Store :=
  match Order.validate r with
  | .error e => (.error (.validation e), s)
  | .ok o =>
    match create_order o s with
    | (.error e, s') => (.error (.http e), s')
    | (.ok resp, s') => (.ok resp, s')

/-- The price the loop uses for one line item and the line's contribution to
the running total. -/
def orderLine (s : Store) (it : OrderItem) : ℚ :=
  ((id_to_price (get_menu_documents s) it.menu_item_id).getD 0) *
    (it.quantity : ℚ)

/-- The unrounded sum over the order's items of (current price × quantity). -/
def orderSum (s : Store) (order : Order) : ℚ :=
  (order.items.map (orderLine s)).sum

/-! ## General lemmas about the order pipeline -/

/-- When every line item's reference resolves, the accumulation loop answers
the starting accumulator plus the sum of price × quantity over the items. -/
theorem sumItems_ok (price : String → Option ℚ) (items : List OrderItem) :
    ∀ acc : ℚ, (∀ it ∈ items, (price it.menu_item_id).isSome) →
      sumItems price items acc =
        .ok (acc + (items.map
          (fun it => (price it.menu_item_id).getD 0 * (it.quantity : ℚ))).sum) := by
  induction items with
  | nil => intro acc _; simp [sumItems]
  | cons it rest ih =>
    intro acc h
    obtain ⟨p, hp⟩ := Option.isSome_iff_exists.mp (h it (by simp))
    simp only [sumItems, hp]
    rw [ih (acc + p * (it.quantity : ℚ))
      (fun x hx => h x (List.mem_cons_of_mem _ hx))]
    simp only [List.map_cons, List.sum_cons, hp, Option.getD_some]
    congr 1
    ring

/-- When an item whose reference does not resolve is preceded only by items
whose references resolve, the loop raises 400 naming that item. -/
theorem sumItems_error (price : String → Option ℚ) (pre : List OrderItem)
    (bad : OrderItem) (post : List OrderItem)
    (hpre : ∀ it ∈ pre, (price it.menu_item_id).isSome)
    (hbad : price bad.menu_item_id = none) :
    ∀ acc : ℚ, sumItems price (pre ++ bad :: post) acc =
      .error { status_code := 400,
               detail := "Menu item not found: " ++ bad.menu_item_id } := by
  induction pre with
  | nil => intro acc; rw [List.nil_append]; simp only [sumItems, hbad]
  | cons it rest ih =>
    intro acc
    obtain ⟨p, hp⟩ := Option.isSome_iff_exists.mp (hpre it (by simp))
    rw [List.cons_append]
    simp only [sumItems, hp]
    exact ih (fun x hx => hpre x (List.mem_cons_of_mem _ hx)) _

/-- `round(0, 2) = 0`. -/
theorem round2_zero : round2 0 = 0 := by
  rw [round2, pyRoundInt]
  norm_num

/-- On an all-resolving order, `create_order` evaluated in full: the
response and the new store. -/
theorem create_order_eq_of_found (order : Order) (s : Store)
    (h : ∀ it ∈ order.items,
      (id_to_price (get_menu_documents s) it.menu_item_id).isSome) :
    create_order order s =
      (.ok { id := toString s.nextId, total := round2 (orderSum s order),
             status := order.status },
       { s with
         orders := s.orders ++
           [⟨s.nextId, order_dict order (round2 (orderSum s order))⟩],
         nextId := s.nextId + 1 }) := by
  have h2 : sumItems (id_to_price (get_menu_documents s)) order.items 0 =
      .ok (orderSum s order) := by
    rw [sumItems_ok (id_to_price (get_menu_documents s)) order.items 0 h]
    rw [zero_add, orderSum]
    rfl
  simp only [create_order, h2, create_order_document]

/-! ## Claim C1 -/

/-- Claim C1: for every order whose items all reference menu item identities
present in the current catalog, `create_order` computes and persists a total
equal to `round(sum(price_i * quantity_i), 2)` over the current prices: the
response carries that total and the persisted order document carries the
same total, computed from the prices in effect at creation time. -/
theorem create_order_total_spec (order : Order) (s : Store)
    (h : ∀ it ∈ order.items,
      (id_to_price (get_menu_documents s) it.menu_item_id).isSome) :
    create_order order s =
      (.ok { id := toString s.nextId, total := round2 (orderSum s order),
             status := order.status },
       { s with
         orders := s.orders ++
           [⟨s.nextId, order_dict order (round2 (orderSum s order))⟩],
         nextId := s.nextId + 1 }) :=
  create_order_eq_of_found order s h

/-- A two-item catalog used to instantiate claim C1. -/
def c1Store : Store :=
  { menu :=
      [⟨0, some "Pizza", none, some 11, some "Pizza", none, some true⟩,
       ⟨1, some "Tea", none, some 4, some "Drinks", none, some true⟩],
    orders := [], nextId := 2 }

/-- A two-line order over `c1Store` used to instantiate claim C1. -/
def c1Order : Order :=
  { customer_name := "Ann", customer_phone := "555", customer_address := "1 St",
    items := [⟨"0", 2⟩, ⟨"1", 1⟩], notes := none, status := "pending" }

theorem create_order_total_spec_witness :
    (∀ it ∈ c1Order.items,
      (id_to_price (get_menu_documents c1Store) it.menu_item_id).isSome) ∧
    create_order c1Order c1Store =
      (.ok { id := toString c1Store.nextId,
             total := round2 (orderSum c1Store c1Order),
             status := c1Order.status },
       { c1Store with
         orders := c1Store.orders ++
           [⟨c1Store.nextId,
             order_dict c1Order (round2 (orderSum c1Store c1Order))⟩],
         nextId := c1Store.nextId + 1 }) :=
  ⟨by decide, create_order_total_spec c1Order c1Store (by decide)⟩

/-! ## Claim C2 -/

/-- Claim C2: for every order containing a `menu_item_id` absent from the
catalog, `create_order` fails with HTTP 400 whose message names the first
missing reference in input order (every earlier item resolves), and the
store is returned unchanged: no order document is persisted. -/
theorem create_order_missing_ref (order : Order) (s : Store)
    (pre : List OrderItem) (bad : OrderItem) (post : List OrderItem)
    (hsplit : order.items = pre ++ bad :: post)
    (hpre : ∀ it ∈ pre,
      (id_to_price (get_menu_documents s) it.menu_item_id).isSome)
    (hbad : id_to_price (get_menu_documents s) bad.menu_item_id = none) :
    create_order order s =
      (.error { status_code := 400,
                detail := "Menu item not found: " ++ bad.menu_item_id }, s) := by
  have he := sumItems_error (id_to_price (get_menu_documents s))
    pre bad post hpre hbad 0
  simp only [create_order, hsplit, he]

/-- A one-item catalog used to instantiate claim C2. -/
def c2Store : Store :=
  { menu := [⟨0, some "Pizza", none, some 5, some "Pizza", none, some true⟩],
    orders := [], nextId := 1 }

/-- An order whose second and third line items reference identities absent
from `c2Store`; the second is the first missing one. -/
def c2Order : Order :=
  { customer_name := "Bob", customer_phone := "556", customer_address := "2 St",
    items := [⟨"0", 1⟩, ⟨"missing", 2⟩, ⟨"also-missing", 1⟩], notes := none,
    status := "pending" }

theorem create_order_missing_ref_witness :
    (c2Order.items = [⟨"0", 1⟩] ++ OrderItem.mk "missing" 2 :: [⟨"also-missing", 1⟩]) ∧
    (∀ it ∈ [OrderItem.mk "0" 1],
      (id_to_price (get_menu_documents c2Store) it.menu_item_id).isSome) ∧
    (id_to_price (get_menu_documents c2Store) "missing" = none) ∧
    create_order c2Order c2Store =
      (.error { status_code := 400,
                detail := "Menu item not found: " ++ "missing" }, c2Store) :=
  ⟨rfl, by decide, by decide,
   create_order_missing_ref c2Order c2Store [⟨"0", 1⟩] ⟨"missing", 2⟩
     [⟨"also-missing", 1⟩] rfl (by decide) (by decide)⟩

/-! ## Claim C3 -/

/-- A catalog whose single item costs 0.125 — a price expressible exactly in
binary floating point, on which half-up and Python-round two-decimal
rounding disagree. -/
def c3Store : Store :=
  { menu := [⟨0, some "Half Bite", none, some (1/8), some "Misc", none, some true⟩],
    orders := [], nextId := 1 }

/-- A one-line order of one Half Bite over `c3Store`. -/
def c3Order : Order :=
  { customer_name := "Cy", customer_phone := "557", customer_address := "3 St",
    items := [⟨"0", 1⟩], notes := none, status := "pending" }

/-- A catalog with two items priced 0.004 each, distinguishing rounding the
final sum once (0.008 rounds to 0.01) from rounding per line item (each
0.004 rounds to 0). -/
def c3bStore : Store :=
  { menu :=
      [⟨0, some "Tiny A", none, some (1/250), some "Misc", none, some true⟩,
       ⟨1, some "Tiny B", none, some (1/250), some "Misc", none, some true⟩],
    orders := [], nextId := 2 }

/-- A two-line order of one Tiny A and one Tiny B over `c3bStore`. -/
def c3bOrder : Order :=
  { customer_name := "Cy", customer_phone := "557", customer_address := "3 St",
    items := [⟨"0", 1⟩, ⟨"1", 1⟩], notes := none, status := "pending" }

/-- Claim C3 counterexample: on the order of one item priced 0.125 the code
answers total 0.12 (Python `round` sends the tie 12.5 to the even multiple
12), while half-up rounding of the same accumulated sum gives 0.13.  The
rounding applied is therefore not half-up rounding nor equivalent to it. -/
theorem create_order_rounding_not_half_up :
    (create_order c3Order c3Store).1 =
      .ok { id := "1", total := 12/100, status := "pending" } ∧
    round2HalfUpSpec ((1:ℚ)/8 * 1) = 13/100 ∧
    ((12:ℚ)/100 ≠ 13/100) := by
  refine ⟨?_, ?_, by norm_num⟩
  · have h1 : id_to_price (get_menu_documents c3Store) "0" = some (1/8) := by
      simp [id_to_price, get_menu_documents, c3Store, List.find?,
        show toString (0:Nat) = "0" from by decide]
    have h2 : sumItems (id_to_price (get_menu_documents c3Store))
        c3Order.items 0 = .ok (1/8) := by
      simp only [show c3Order.items = [OrderItem.mk "0" 1] from rfl,
        sumItems, h1]
      norm_num
    have h3 : round2 (1/8) = 12/100 := by
      rw [round2, pyRoundInt]
      norm_num
    simp only [create_order, h2, h3, create_order_document]
    simp [c3Store, c3Order, show toString (1:Nat) = "1" from by decide]
  · rw [round2HalfUpSpec]
    norm_num

/-- Claim C3 (amended): the total is rounded to two decimal places exactly
once, on the final accumulated sum, using Python `round` semantics (nearest
multiple of 1/100, ties to the even multiple) rather than half-up: the
response total is `round2` of the unrounded sum of price × quantity; and on
the concrete two-line order `c3bOrder` the code answers 0.01 while rounding
each line separately would give 0. -/
theorem create_order_rounds_once (order : Order) (s : Store)
    (h : ∀ it ∈ order.items,
      (id_to_price (get_menu_documents s) it.menu_item_id).isSome) :
    ((create_order order s).1 =
      .ok { id := toString s.nextId, total := round2 (orderSum s order),
            status := order.status }) ∧
    ((create_order c3bOrder c3bStore).1 =
      .ok { id := "2", total := 1/100, status := "pending" }) ∧
    (c3bOrder.items.map (fun it => round2 (orderLine c3bStore it))).sum = 0 := by
  refine ⟨?_, ?_, ?_⟩
  · rw [create_order_eq_of_found order s h]
  · have h1 : id_to_price (get_menu_documents c3bStore) "0" = some (1/250) := by
      simp [id_to_price, get_menu_documents, c3bStore, List.find?,
        show toString (0:Nat) = "0" from by decide,
        show toString (1:Nat) = "1" from by decide]
    have h1b : id_to_price (get_menu_documents c3bStore) "1" = some (1/250) := by
      simp [id_to_price, get_menu_documents, c3bStore, List.find?,
        show toString (0:Nat) = "0" from by decide,
        show toString (1:Nat) = "1" from by decide]
    have h2 : sumItems (id_to_price (get_menu_documents c3bStore))
        c3bOrder.items 0 = .ok (1/125) := by
      simp only [show c3bOrder.items = [OrderItem.mk "0" 1, OrderItem.mk "1" 1]
        from rfl, sumItems, h1, h1b]
      norm_num
    have h3 : round2 (1/125) = 1/100 := by
      rw [round2, pyRoundInt]
      norm_num
    simp only [create_order, h2, h3, create_order_document]
    simp [c3bStore, c3bOrder, show toString (2:Nat) = "2" from by decide]
  · have h1 : orderLine c3bStore ⟨"0", 1⟩ = 1/250 := by
      simp [orderLine, id_to_price, get_menu_documents, c3bStore, List.find?,
        show toString (0:Nat) = "0" from by decide,
        show toString (1:Nat) = "1" from by decide]
    have h1b : orderLine c3bStore ⟨"1", 1⟩ = 1/250 := by
      simp [orderLine, id_to_price, get_menu_documents, c3bStore, List.find?,
        show toString (0:Nat) = "0" from by decide,
        show toString (1:Nat) = "1" from by decide]
    have h3 : round2 (1/250) = 0 := by
      rw [round2, pyRoundInt]
      norm_num
    simp only [show c3bOrder.items = [OrderItem.mk "0" 1, OrderItem.mk "1" 1]
      from rfl, List.map_cons, List.map_nil, h1, h1b, h3, List.sum_cons,
      List.sum_nil]
    norm_num

theorem create_order_rounds_once_witness :
    (∀ it ∈ c3Order.items,
      (id_to_price (get_menu_documents c3Store) it.menu_item_id).isSome) ∧
    (((create_order c3Order c3Store).1 =
      .ok { id := toString c3Store.nextId,
            total := round2 (orderSum c3Store c3Order),
            status := c3Order.status }) ∧
     ((create_order c3bOrder c3bStore).1 =
      .ok { id := "2", total := 1/100, status := "pending" }) ∧
     (c3bOrder.items.map (fun it => round2 (orderLine c3bStore it))).sum = 0) :=
  ⟨by decide, create_order_rounds_once c3Order c3Store (by decide)⟩

/-! ## Claim C4 -/

/-- Validation never reads the unknown `total` key. -/
theorem validate_eraseTotal (r : RawOrder) :
    Order.validate { r with total := none } = Order.validate r := by
  cases r
  rfl

/-- Claim C4: the persisted and returned total are computed entirely
server-side: two order requests identical except for the caller-supplied
`total` field produce identical endpoint results (same response, same
store), so the caller-supplied value is ignored. -/
theorem order_endpoint_ignores_client_total (r1 r2 : RawOrder) (s : Store)
    (h : { r1 with total := none } = { r2 with total := none }) :
    order_endpoint r1 s = order_endpoint r2 s := by
  have hv : Order.validate r1 = Order.validate r2 := by
    rw [← validate_eraseTotal r1, ← validate_eraseTotal r2, h]
  rw [order_endpoint, order_endpoint, hv]

/-- A valid raw order body with no caller-supplied total. -/
def c4Raw : RawOrder :=
  { customer_name := some "Dee", customer_phone := some "558",
    customer_address := some "4 St", items := some [], notes := none,
    status := none, total := none }

/-- The empty store used to instantiate claim C4. -/
def c4Store : Store := { menu := [], orders := [], nextId := 0 }

theorem order_endpoint_ignores_client_total_witness :
    ({ { c4Raw with total := some 999 } with total := none } =
      { c4Raw with total := none }) ∧
    order_endpoint { c4Raw with total := some 999 } c4Store =
      order_endpoint c4Raw c4Store :=
  ⟨rfl, order_endpoint_ignores_client_total
    { c4Raw with total := some 999 } c4Raw c4Store rfl⟩

/-! ## Claim C5 -/

/-- What a successful `OrderItem` validation guarantees: both fields were
present and the quantity satisfies the `ge=1` bound. -/
theorem OrderItem.validate_ok (r : RawOrderItem) (it : OrderItem)
    (h : OrderItem.validate r = .ok it) :
    r.menu_item_id = some it.menu_item_id ∧
    r.quantity = some it.quantity ∧ 1 ≤ it.quantity := by
  obtain ⟨mid, q⟩ := r
  cases mid with
  | none => exact Except.noConfusion h
  | some mid =>
    cases q with
    | none => exact Except.noConfusion h
    | some q =>
      simp only [OrderItem.validate] at h
      by_cases hq : q < 1
      · rw [if_pos hq] at h
        exact Except.noConfusion h
      · rw [if_neg hq] at h
        injection h with h
        subst h
        refine ⟨rfl, rfl, ?_⟩
        show (1 : ℤ) ≤ q
        omega

/-- What a successful items-list validation guarantees: every validated
quantity and every raw quantity that was supplied is at least 1. -/
theorem validateItems_ok (rits : List RawOrderItem) (its : List OrderItem)
    (h : validateItems rits = .ok its) :
    (∀ it ∈ its, 1 ≤ it.quantity) ∧
    (∀ rit ∈ rits, ∀ q, rit.quantity = some q → 1 ≤ q) := by
  induction rits generalizing its with
  | nil =>
    simp only [validateItems] at h
    injection h with h
    subst h
    exact ⟨by simp, by simp⟩
  | cons rit rest ih =>
    simp only [validateItems] at h
    cases hv : OrderItem.validate rit with
    | error e => rw [hv] at h; exact Except.noConfusion h
    | ok it =>
      simp only [hv] at h
      cases hr : validateItems rest with
      | error e => rw [hr] at h; exact Except.noConfusion h
      | ok its2 =>
        simp only [hr] at h
        injection h with h
        subst h
        obtain ⟨hmid, hq, hge⟩ := OrderItem.validate_ok rit it hv
        obtain ⟨ih1, ih2⟩ := ih its2 hr
        constructor
        · intro x hx
          rcases List.mem_cons.mp hx with hx | hx
          · subst hx; exact hge
          · exact ih1 x hx
        · intro x hx p hxp
          rcases List.mem_cons.mp hx with hx | hx
          · subst hx
            rw [hxp] at hq
            injection hq with hq
            omega
          · exact ih2 x hx p hxp

/-- Claim C5 counterexample: an order body whose `customer_name` is the
empty string (phone and address non-empty) passes schema validation — the
claim's "rejects ... an empty string" fails on the code, which declares the
customer fields as plain `str` with no minimum length. -/
theorem order_validation_accepts_empty_name :
    Order.validate
      { customer_name := some "", customer_phone := some "5551234",
        customer_address := some "1 Main St", items := some [], notes := none,
        status := none, total := none } =
      .ok { customer_name := "", customer_phone := "5551234",
            customer_address := "1 Main St", items := [], notes := none,
            status := "pending" } := rfl

/-- Claim C5 (amended): validation rejects an order only when a required
field is missing or an item quantity violates `ge=1` — empty strings are
accepted.  Whenever validation succeeds, the three customer fields and
`items` were present as supplied (empty or not), every supplied quantity is
an integer ≥ 1, and the status is the supplied one, defaulting to
`"pending"` when absent. -/
theorem order_validation_contract (r : RawOrder) (o : Order)
    (h : Order.validate r = .ok o) :
    r.customer_name = some o.customer_name ∧
    r.customer_phone = some o.customer_phone ∧
    r.customer_address = some o.customer_address ∧
    (∀ it ∈ o.items, 1 ≤ it.quantity) ∧
    (∀ rits, r.items = some rits →
      ∀ rit ∈ rits, ∀ q, rit.quantity = some q → 1 ≤ q) ∧
    o.status = r.status.getD "pending" := by
  obtain ⟨cn, cp, ca, its, nts, st, tot⟩ := r
  cases cn with
  | none => exact Except.noConfusion h
  | some nm =>
    cases cp with
    | none => exact Except.noConfusion h
    | some ph =>
      cases ca with
      | none => exact Except.noConfusion h
      | some ad =>
        cases its with
        | none => exact Except.noConfusion h
        | some rits =>
          simp only [Order.validate] at h
          cases hv : validateItems rits with
          | error e => rw [hv] at h; exact Except.noConfusion h
          | ok lst =>
            simp only [hv] at h
            injection h with h
            subst h
            obtain ⟨h1, h2⟩ := validateItems_ok rits lst hv
            refine ⟨rfl, rfl, rfl, h1, ?_, rfl⟩
            intro rits2 hr2
            injection hr2 with hr2
            subst hr2
            exact h2

/-- A valid raw order body used to instantiate claim C5. -/
def c5Raw : RawOrder :=
  { customer_name := some "Eve", customer_phone := some "559",
    customer_address := some "5 St",
    items := some [{ menu_item_id := some "7", quantity := some 2 }],
    notes := none, status := none, total := none }

/-- The validated order `c5Raw` produces. -/
def c5Ord : Order :=
  { customer_name := "Eve", customer_phone := "559", customer_address := "5 St",
    items := [⟨"7", 2⟩], notes := none, status := "pending" }

theorem order_validation_contract_witness :
    Order.validate c5Raw = .ok c5Ord ∧
    (c5Raw.customer_name = some c5Ord.customer_name ∧
     c5Raw.customer_phone = some c5Ord.customer_phone ∧
     c5Raw.customer_address = some c5Ord.customer_address ∧
     (∀ it ∈ c5Ord.items, 1 ≤ it.quantity) ∧
     (∀ rits, c5Raw.items = some rits →
       ∀ rit ∈ rits, ∀ q, rit.quantity = some q → 1 ≤ q) ∧
     c5Ord.status = c5Raw.status.getD "pending") :=
  ⟨rfl, order_validation_contract c5Raw c5Ord rfl⟩

/-! ## Claim C6 -/

/-- Claim C6: on an empty `menuitem` collection `list_menu` seeds exactly 4
demonstration items (the response and the collection both have 4 entries),
and it is idempotent: a second call with no intervening writes returns the
very same 4 serialized items — not 8 — and leaves the store unchanged. -/
theorem list_menu_seed_idempotent (s : Store) (h : s.menu = []) :
    (list_menu s).1.length = 4 ∧ (list_menu s).2.menu.length = 4 ∧
    list_menu (list_menu s).2 = ((list_menu s).1, (list_menu s).2) := by
  obtain ⟨menu, orders, nid⟩ := s
  simp only at h
  subst h
  refine ⟨?_, ?_, ?_⟩ <;>
    simp [list_menu, seedStore, seed_items, create_menu_document,
      get_menu_documents, menuItemToDoc, serialize_doc]

/-- The empty store used to instantiate claim C6. -/
def c6Store : Store := { menu := [], orders := [], nextId := 0 }

theorem list_menu_seed_idempotent_witness :
    c6Store.menu = [] ∧
    ((list_menu c6Store).1.length = 4 ∧ (list_menu c6Store).2.menu.length = 4 ∧
     list_menu (list_menu c6Store).2 =
       ((list_menu c6Store).1, (list_menu c6Store).2)) :=
  ⟨rfl, list_menu_seed_idempotent c6Store rfl⟩

/-! ## Claim C7 -/

/-- Claim C7: a menu-item body with `price = -1` fails validation — the
endpoint reports a client error and the store is unchanged, nothing
persisted — while the same endpoint on a body with `price = 0` (name and
category supplied) succeeds and persists the item. -/
theorem menu_item_price_validation (r : RawMenuItem) (s : Store) :
    (r.price = some (-1) → ∃ e, menu_endpoint r s = (.error e, s)) ∧
    (r.price = some 0 → r.name.isSome → r.category.isSome →
      ∃ m, MenuItem.validate r = .ok m ∧ m.price = 0 ∧
        menu_endpoint r s =
          (.ok (toString s.nextId),
           { s with menu := s.menu ++ [menuItemToDoc s.nextId m],
                    nextId := s.nextId + 1 })) := by
  obtain ⟨nm, d, p, cat, iu, ia⟩ := r
  constructor
  · intro hp
    simp only at hp
    subst hp
    cases nm with
    | none =>
      exact ⟨.missing "name", rfl⟩
    | some nm =>
      refine ⟨.ge "price" 0, ?_⟩
      simp only [menu_endpoint, MenuItem.validate]
      rw [if_pos (by norm_num : (-1 : ℚ) < 0)]
  · intro hp hn hc
    simp only at hp hn hc
    subst hp
    obtain ⟨nm2, hnm⟩ := Option.isSome_iff_exists.mp hn
    obtain ⟨cat2, hcat⟩ := Option.isSome_iff_exists.mp hc
    subst hnm
    subst hcat
    refine ⟨{ name := nm2, description := d, price := 0, category := cat2,
              image_url := iu, is_available := ia.getD true }, ?_, rfl, ?_⟩
    · simp only [MenuItem.validate]
      rw [if_neg (by norm_num : ¬ (0 : ℚ) < 0)]
    · simp only [menu_endpoint, MenuItem.validate]
      rw [if_neg (by norm_num : ¬ (0 : ℚ) < 0)]
      rfl

/-- A raw menu-item body priced −1, used to instantiate claim C7. -/
def c7Bad : RawMenuItem :=
  { name := some "Bad Soup", description := none, price := some (-1),
    category := some "Soup", image_url := none, is_available := none }

/-- A raw menu-item body priced 0, used to instantiate claim C7. -/
def c7Free : RawMenuItem :=
  { name := some "Free Soup", description := none, price := some 0,
    category := some "Soup", image_url := none, is_available := none }

/-- The empty store used to instantiate claim C7. -/
def c7Store : Store := { menu := [], orders := [], nextId := 0 }

theorem menu_item_price_validation_witness :
    (∃ e, menu_endpoint c7Bad c7Store = (.error e, c7Store)) ∧
    (∃ m, MenuItem.validate c7Free = .ok m ∧ m.price = 0 ∧
      menu_endpoint c7Free c7Store =
        (.ok (toString c7Store.nextId),
         { c7Store with
           menu := c7Store.menu ++ [menuItemToDoc c7Store.nextId m],
           nextId := c7Store.nextId + 1 })) :=
  ⟨(menu_item_price_validation c7Bad c7Store).1 rfl,
   (menu_item_price_validation c7Free c7Store).2 rfl rfl rfl⟩

/-! ## Claim C8 -/

/-- Claim C8: whenever `create_order` succeeds, the response is exactly the
three-field `OrderResponse` record — `id` the newly assigned identity as a
string, `total` the server-computed rounded sum, `status` the order's
status string — and nothing else: the response equals that record
constructor applied to precisely those three values. -/
theorem create_order_response_contract (order : Order) (s : Store)
    (resp : OrderResponse) (s2 : Store)
    (h : create_order order s = (.ok resp, s2)) :
    ∃ t, sumItems (id_to_price (get_menu_documents s)) order.items 0 = .ok t ∧
      resp = { id := toString s.nextId, total := round2 t,
               status := order.status } := by
  rw [create_order] at h
  cases hs : sumItems (id_to_price (get_menu_documents s)) order.items 0 with
  | error e =>
    rw [hs] at h
    simp at h
  | ok t =>
    rw [hs] at h
    refine ⟨t, rfl, ?_⟩
    simp only [create_order_document] at h
    have h2 := congrArg Prod.fst h
    simp only at h2
    injection h2 with h2
    exact h2.symm

/-- An empty-catalog store used to instantiate claim C8. -/
def c8Store : Store := { menu := [], orders := [], nextId := 0 }

/-- A zero-line order used to instantiate claim C8. -/
def c8Order : Order :=
  { customer_name := "Gil", customer_phone := "560", customer_address := "6 St",
    items := [], notes := none, status := "pending" }

theorem create_order_response_contract_witness :
    create_order c8Order c8Store =
      (.ok { id := "0", total := round2 0, status := "pending" },
       { menu := [], orders := [⟨0, order_dict c8Order (round2 0)⟩],
         nextId := 1 }) ∧
    (∃ t, sumItems (id_to_price (get_menu_documents c8Store))
        c8Order.items 0 = .ok t ∧
      ({ id := "0", total := round2 0, status := "pending" } : OrderResponse) =
        { id := toString c8Store.nextId, total := round2 t,
          status := c8Order.status }) :=
  ⟨rfl, create_order_response_contract c8Order c8Store
    { id := "0", total := round2 0, status := "pending" }
    { menu := [], orders := [⟨0, order_dict c8Order (round2 0)⟩], nextId := 1 }
    rfl⟩

/-! ## Claim C9 -/

/-- Claim C9: an order body with an empty items list and the customer
fields supplied is accepted end to end — schema validation does not require
`items` to be non-empty — and is persisted with total 0; the response
carries total 0 and the defaulted status. -/
theorem order_endpoint_empty_items (r : RawOrder) (s : Store)
    (nm ph ad : String)
    (h1 : r.customer_name = some nm) (h2 : r.customer_phone = some ph)
    (h3 : r.customer_address = some ad) (h4 : r.items = some []) :
    order_endpoint r s =
      (.ok { id := toString s.nextId, total := 0,
             status := r.status.getD "pending" },
       { s with
         orders := s.orders ++
           [⟨s.nextId, ⟨nm, ph, ad, [], r.notes, r.status.getD "pending", 0⟩⟩],
         nextId := s.nextId + 1 }) := by
  obtain ⟨cn, cp, ca, its, nts, st, tot⟩ := r
  simp only at h1 h2 h3 h4
  subst h1
  subst h2
  subst h3
  subst h4
  simp [order_endpoint, Order.validate, validateItems, create_order, sumItems,
    create_order_document, order_dict, round2_zero]

/-- A raw order body with an empty items list, used to instantiate C9. -/
def c9Raw : RawOrder :=
  { customer_name := some "Hal", customer_phone := some "561",
    customer_address := some "7 St", items := some [], notes := none,
    status := none, total := none }

/-- The empty store used to instantiate claim C9. -/
def c9Store : Store := { menu := [], orders := [], nextId := 0 }

theorem order_endpoint_empty_items_witness :
    (c9Raw.customer_name = some "Hal" ∧ c9Raw.customer_phone = some "561" ∧
     c9Raw.customer_address = some "7 St" ∧ c9Raw.items = some []) ∧
    order_endpoint c9Raw c9Store =
      (.ok { id := toString c9Store.nextId, total := 0,
             status := c9Raw.status.getD "pending" },
       { c9Store with
         orders := c9Store.orders ++
           [⟨c9Store.nextId,
             ⟨"Hal", "561", "7 St", [], c9Raw.notes,
              c9Raw.status.getD "pending", 0⟩⟩],
         nextId := c9Store.nextId + 1 }) :=
  ⟨⟨rfl, rfl, rfl, rfl⟩,
   order_endpoint_empty_items c9Raw c9Store "Hal" "561" "7 St"
     rfl rfl rfl rfl⟩

/-! ## Claim C10 -/

/-- Claim C10: a stored menu document that lacks a `price` key does not make
`create_order` fail: `m.get("price", 0)` resolves its price to 0, so the
lookup answers `some 0` and an order line referencing such a document
contributes 0 to the total — the order succeeds with total 0 rather than
erroring. -/
theorem menu_doc_without_price (s : Store) (order : Order) (it : OrderItem)
    (d : MenuItemDoc)
    (hfind : s.menu.reverse.find? (fun m => toString m._id == it.menu_item_id)
      = some d)
    (hprice : d.price = none)
    (hitems : order.items = [it]) :
    id_to_price (get_menu_documents s) it.menu_item_id = some 0 ∧
    create_order order s =
      (.ok { id := toString s.nextId, total := 0, status := order.status },
       { s with
         orders := s.orders ++ [⟨s.nextId, order_dict order 0⟩],
         nextId := s.nextId + 1 }) := by
  have hl : id_to_price (get_menu_documents s) it.menu_item_id = some 0 := by
    simp only [id_to_price, get_menu_documents, hfind, hprice,
      Option.getD_none]
  refine ⟨hl, ?_⟩
  have hsum : sumItems (id_to_price (get_menu_documents s)) [it] 0 =
      .ok 0 := by
    simp only [sumItems, hl]
    norm_num
  simp only [create_order, hitems, hsum, create_order_document, round2_zero]

/-- A store holding one menu document with no `price` key, used to
instantiate claim C10. -/
def c10Store : Store :=
  { menu := [⟨0, some "Mystery", none, none, some "Misc", none, some true⟩],
    orders := [], nextId := 1 }

/-- A one-line order referencing the priceless document of `c10Store`. -/
def c10Order : Order :=
  { customer_name := "Ivy", customer_phone := "562", customer_address := "8 St",
    items := [⟨"0", 3⟩], notes := none, status := "pending" }

theorem menu_doc_without_price_witness :
    (c10Store.menu.reverse.find? (fun m => toString m._id == "0") =
      some ⟨0, some "Mystery", none, none, some "Misc", none, some true⟩) ∧
    (MenuItemDoc.price ⟨0, some "Mystery", none, none, some "Misc", none,
      some true⟩ = none) ∧
    c10Order.items = [⟨"0", 3⟩] ∧
    (id_to_price (get_menu_documents c10Store) "0" = some 0 ∧
     create_order c10Order c10Store =
       (.ok { id := toString c10Store.nextId, total := 0,
              status := c10Order.status },
        { c10Store with
          orders := c10Store.orders ++
            [⟨c10Store.nextId, order_dict c10Order 0⟩],
          nextId := c10Store.nextId + 1 })) :=
  ⟨by decide, rfl, rfl,
   menu_doc_without_price c10Store c10Order ⟨"0", 3⟩
     ⟨0, some "Mystery", none, none, some "Misc", none, some true⟩
     (by decide) rfl rfl⟩

end FoodApp
